import Mathlib

/-!
# Verification of the MAIL_MATE triage and folder-synchronization core

Shallow embedding of the rule-based email classifier
(`MailBuddy/utils/mailbuddy_triage.py`) and the IMAP folder manager
(`MailBuddy/utils/email_folder_manager.py`), with theorems checking the
specification's claims against these definitions.

Strings are Python `str` values; Python's case-insensitive substring
matching (`k in text` after `.lower()`) is embedded as containment of
character lists after mapping `Char.toLower`.
-/

namespace MailMate

/-- Python's `needle in hay` substring test on character lists:
`true` iff `needle` occurs contiguously inside `hay`. -/
def sublistAt : List Char → List Char → Bool
  | n, [] => n.isEmpty
  | n, c :: t => n.isPrefixOf (c :: t) || sublistAt n t

/-- Python's `s.lower()` on a string, viewed as a character list. -/
def pyLower (s : String) : List Char := s.data.map Char.toLower

/-- Python's `s.lower()` returning a string (used for stored contacts,
which `TriageAgent.__init__` lower-cases once). -/
def pyLowerStr (s : String) : String := ⟨s.data.map Char.toLower⟩

/-- Source `contains_any(text, keywords)` from `_rule_based_analyze`:
`any(k in text for k in keywords)`. -/
def contains_any (text : List Char) (keywords : List String) : Bool :=
  keywords.any (fun k => sublistAt k.data text)

/-- The six categories of `EmailTriageResult.category`
(a `Literal[...]` in the source). -/
inductive Category where
  | URGENT | IMPORTANT | NEWSLETTER | PROMOTIONAL | OTP_RECEIPT | OTHER
  deriving DecidableEq, Repr

/-- Source `EmailTriageResult`: structured result of the classification agent. -/
structure EmailTriageResult where
  category : Category
  action : String
  justification : String
  deriving DecidableEq, Repr

/-- Source `Email`: subject, body, sender (all strings). -/
structure Email where
  subject : String
  body : String
  sender : String
  deriving DecidableEq, Repr

/-- Source `TriageAgent` state: the known-contacts list, already lower-cased
by `__init__` (`self.known_contacts = [c.lower() for c in ...]`). -/
structure TriageAgent where
  known_contacts : List String
  deriving Repr

/-- Source `TriageAgent.__init__`: lower-cases every supplied contact. -/
def TriageAgent.init (known_contacts : List String) : TriageAgent :=
  ⟨known_contacts.map pyLowerStr⟩

def newsletter_keywords : List String :=
  ["unsubscribe", "weekly update", "latest issue", "newsletter"]

def otp_keywords : List String :=
  ["otp", "one time password", "verification code"]

def receipt_keywords : List String :=
  ["receipt", "invoice", "order receipt", "payment receipt"]

def promotional_keywords : List String :=
  ["sale", "offer", "discount", "buy now", "limited time", "promo", "promotional"]

def urgency_keywords : List String :=
  ["urgent", "asap", "immediately", "important", "action required", "deadline",
   "respond immediately"]

/-- Rule 1 condition: subject OR body contains a newsletter keyword. -/
def matchesNewsletter (e : Email) : Bool :=
  contains_any (pyLower e.subject) newsletter_keywords ||
  contains_any (pyLower e.body) newsletter_keywords

/-- Rule 2 condition: subject OR body contains an OTP or receipt keyword. -/
def matchesOtpReceipt (e : Email) : Bool :=
  contains_any (pyLower e.subject) (otp_keywords ++ receipt_keywords) ||
  contains_any (pyLower e.body) (otp_keywords ++ receipt_keywords)

/-- Rule 3 condition: subject OR body contains a promotional keyword. -/
def matchesPromotional (e : Email) : Bool :=
  contains_any (pyLower e.subject) promotional_keywords ||
  contains_any (pyLower e.body) promotional_keywords

/-- Source `is_known_contact = any(k in sender for k in self.known_contacts)`
over the lower-cased sender. -/
def isKnownContact (a : TriageAgent) (e : Email) : Bool :=
  a.known_contacts.any (fun k => sublistAt k.data (pyLower e.sender))

/-- Source `has_urgency = contains_any(subject + " " + body, urgency_keywords)`
over the lower-cased fields. -/
def hasUrgency (e : Email) : Bool :=
  contains_any (pyLower e.subject ++ [' '] ++ pyLower e.body) urgency_keywords

/-- Source `TriageAgent._rule_based_analyze`: the deterministic classifier.
Rules are evaluated in source order; the first matching rule returns. -/
def rule_based_analyze (a : TriageAgent) (e : Email) : EmailTriageResult :=
  if matchesNewsletter e then
    { category := .NEWSLETTER
      action := "MOVE_TO_FOLDER: Newsletters"
      justification :=
        "Message contains newsletter indicators like 'unsubscribe' or 'weekly update'." }
  else if matchesOtpReceipt e then
    { category := .OTP_RECEIPT
      action := "MOVE_TO_FOLDER: Receipts"
      justification :=
        "Subject or body indicates a receipt or verification/OTP (e.g., 'receipt', 'invoice', or 'otp')." }
  else if matchesPromotional e then
    { category := .PROMOTIONAL
      action := "MOVE_TO_FOLDER: Promotions"
      justification :=
        "Contains promotional language such as 'sale', 'offer', or 'discount'." }
  else if isKnownContact a e && hasUrgency e then
    { category := .URGENT
      action := "FLAG_PRIORITY: High"
      justification :=
        "From a known contact and contains high-urgency language such as 'urgent' or 'ASAP'." }
  else if isKnownContact a e then
    { category := .IMPORTANT
      action := "FLAG_PRIORITY: High"
      justification :=
        "From a known contact; marked important to ensure a timely response." }
  else if hasUrgency e then
    { category := .IMPORTANT
      action := "FLAG_PRIORITY: High"
      justification :=
        "Contains urgent language; flagged for prompt attention." }
  else
    { category := .OTHER
      action := "MOVE_TO_FOLDER: Inbox"
      justification :=
        "No matching criteria for special categories; leave in Inbox for manual review." }

/-- Source `TriageAgent.analyze` with the optional CrewAI delegate modelled as a
function that either produces a structured result or fails (exception,
malformed JSON, schema violation — all surfaced as `Except.error`):
on delegate failure the agent falls back to `_rule_based_analyze`. -/
def analyze (delegate : Option (Email → Except String EmailTriageResult))
    (a : TriageAgent) (e : Email) : EmailTriageResult :=
  match delegate with
  | none => rule_based_analyze a e
  | some d =>
    match d e with
    | .ok r => r
    | .error _ => rule_based_analyze a e

/-! ## Folder manager (`MailBuddy/utils/email_folder_manager.py`)

The IMAP server is modelled by the list of folder names it would report to
`list()`; a successful `create(folder)` appends the folder to that list, and
protocol failures (exceptions raised by `create`, `select`, `copy`, `store`,
`expunge`) are injected through a failure oracle. Each operation returns the
source function's boolean result together with the calls it issued. -/

/-- The remote mailbox: the folder names the server reports. -/
structure ImapState where
  folders : List String
  deriving DecidableEq, Repr

/-- Source `EmailFolderManager.DEFAULT_FOLDER_MAPPING`, in insertion order. -/
def DEFAULT_FOLDER_MAPPING : List (String × String) :=
  [("URGENT", "Urgent"), ("IMPORTANT", "Important"), ("NEWSLETTER", "Newsletters"),
   ("PROMOTIONAL", "Promotions"), ("OTP_RECEIPT", "Receipts"), ("OTHER", "Archive")]

/-- Python `dict` lookup `m.get(k)` on an insertion-ordered mapping with
unique keys: first matching key wins. -/
def dictGet (m : List (String × String)) (k : String) : Option String :=
  match m with
  | [] => none
  | (k', v) :: t => if k' = k then some v else dictGet t k

/-- Source `EmailFolderManager.get_folder_for_category`:
`self.folder_mapping.get(category, self.folder_mapping["OTHER"])`.
Python evaluates the default argument first, so a mapping without an
`"OTHER"` key raises `KeyError` (modelled as `none`) for every category. -/
def get_folder_for_category (m : List (String × String)) (category : String) :
    Option String :=
  match dictGet m "OTHER" with
  | none => none
  | some d => some ((dictGet m category).getD d)

/-- The creation loop of `EmailFolderManager.ensure_folders_exist`: `existing`
is the folder set parsed from the single `list()` call (never refreshed inside
the loop); for each mapping entry whose folder is not in `existing`, `create`
is attempted — success appends the folder to the server state, an exception
(per the `fail` oracle) returns `False` at once. Returns the boolean result,
the final server state, and the `create` calls attempted, in order. -/
def ensureLoop (fail : String → Bool) (existing : List String) :
    List (String × String) → ImapState → Bool × ImapState × List String
  | [], st => (true, st, [])
  | (_, folder) :: rest, st =>
    if folder ∈ existing then ensureLoop fail existing rest st
    else if fail folder then (false, st, [folder])
    else
      let r := ensureLoop fail existing rest ⟨st.folders ++ [folder]⟩
      (r.1, r.2.1, folder :: r.2.2)

/-- Source `EmailFolderManager.ensure_folders_exist` on a connected session: lists
the server's folders once, then runs the creation loop over the mapping. -/
def ensure_folders_exist (fail : String → Bool) (mapping : List (String × String))
    (st : ImapState) : Bool × ImapState × List String :=
  ensureLoop fail st.folders mapping st

/-- Modelled from the spec: `MailMate/utils/email_folder_manager.py` is
imported by `MailMate/tests/test_email_folder_manager.py` but absent from the
sources. Per the spec, its `ensure_folders_exist` computes "the set difference
against the configured FolderMapping values (excluding any entry equal to the
root inbox, case-insensitively), and creates each missing folder". Same
conventions as `ensureLoop`, with the inbox exclusion added. -/
def mailmateEnsureLoop (fail : String → Bool) (existing : List String) :
    List (String × String) → ImapState → Bool × ImapState × List String
  | [], st => (true, st, [])
  | (_, folder) :: rest, st =>
    if pyLowerStr folder = "inbox" ∨ folder ∈ existing then
      mailmateEnsureLoop fail existing rest st
    else if fail folder then (false, st, [folder])
    else
      let r := mailmateEnsureLoop fail existing rest ⟨st.folders ++ [folder]⟩
      (r.1, r.2.1, folder :: r.2.2)

/-- Modelled from the spec: the missing MailMate `ensure_folders_exist`,
listing the server's folders once and running the inbox-excluding loop. -/
def mailmate_ensure_folders_exist (fail : String → Bool)
    (mapping : List (String × String)) (st : ImapState) :
    Bool × ImapState × List String :=
  mailmateEnsureLoop fail st.folders mapping st

/-- The IMAP calls `EmailFolderManager.move_email` can issue. -/
inductive ImapOp where
  | select (folder : String)
  | copy (message_id target : String)
  | store (message_id : String)
  | expunge
  deriving DecidableEq, Repr

/-- The protocol sequence of `move_email(message_id, source, target)`:
`select(source)`, `copy(message_id, target)`,
`store(message_id, '+FLAGS', '\Deleted')`, `expunge()`. -/
def moveSteps (message_id source target : String) : List ImapOp :=
  [.select source, .copy message_id target, .store message_id, .expunge]

/-- Straight-line execution of a call sequence inside one `try` block: the
first call whose injected failure oracle fires raises, aborting the rest;
returns the boolean result and the calls attempted, in order. -/
def runSeq (fail : ImapOp → Bool) : List ImapOp → Bool × List ImapOp
  | [] => (true, [])
  | op :: rest =>
    if fail op then (false, [op])
    else
      let r := runSeq fail rest
      (r.1, op :: r.2)

/-- Source `EmailFolderManager.move_email` on a connected session. -/
def move_email (fail : ImapOp → Bool) (message_id source target : String) :
    Bool × List ImapOp :=
  runSeq fail (moveSteps message_id source target)

end MailMate

open MailMate in
/-- C1: any message whose lower-cased subject or body contains a newsletter
keyword classifies as NEWSLETTER with action `MOVE_TO_FOLDER: Newsletters`,
for every agent (known-contacts set) and regardless of any other keywords
present: the newsletter rule is checked first and pre-empts all later rules. -/
theorem newsletter_preempts (a : TriageAgent) (e : Email)
    (h : matchesNewsletter e = true) :
    (rule_based_analyze a e).category = Category.NEWSLETTER ∧
    (rule_based_analyze a e).action = "MOVE_TO_FOLDER: Newsletters" := by
  simp [rule_based_analyze, h]

open MailMate in
/-- C1 witness: a message mixing a newsletter keyword with urgency, OTP and
promotional keywords, from a known contact, still classifies NEWSLETTER. -/
theorem newsletter_preempts_witness :
    matchesNewsletter
        ⟨"Weekly Update - urgent reminder", "sale! your receipt and otp inside", "boss@example.com"⟩
      = true ∧
    (rule_based_analyze (TriageAgent.init ["boss@example.com"])
        ⟨"Weekly Update - urgent reminder", "sale! your receipt and otp inside", "boss@example.com"⟩).category
      = Category.NEWSLETTER := by
  exact ⟨by decide,
    (newsletter_preempts (TriageAgent.init ["boss@example.com"])
      ⟨"Weekly Update - urgent reminder", "sale! your receipt and otp inside", "boss@example.com"⟩
      (by decide)).1⟩

open MailMate in
/-- C2: with no newsletter/OTP-receipt/promotional keyword present, the
urgency rules decide: known contact with urgency → URGENT; known contact
without urgency → IMPORTANT; unknown contact with urgency → IMPORTANT;
in each case the action is `FLAG_PRIORITY: High`. -/
theorem urgency_rules (a : TriageAgent) (e : Email)
    (hn : matchesNewsletter e = false) (ho : matchesOtpReceipt e = false)
    (hp : matchesPromotional e = false) :
    (isKnownContact a e = true → hasUrgency e = true →
      (rule_based_analyze a e).category = Category.URGENT ∧
      (rule_based_analyze a e).action = "FLAG_PRIORITY: High") ∧
    (isKnownContact a e = true → hasUrgency e = false →
      (rule_based_analyze a e).category = Category.IMPORTANT ∧
      (rule_based_analyze a e).action = "FLAG_PRIORITY: High") ∧
    (isKnownContact a e = false → hasUrgency e = true →
      (rule_based_analyze a e).category = Category.IMPORTANT ∧
      (rule_based_analyze a e).action = "FLAG_PRIORITY: High") := by
  refine ⟨fun hk hu => ?_, fun hk hu => ?_, fun hk hu => ?_⟩ <;>
    simp [rule_based_analyze, hn, ho, hp, hk, hu]

open MailMate in
/-- C2 witness: the three urgency/importance cases on concrete messages. -/
theorem urgency_rules_witness :
    (rule_based_analyze (TriageAgent.init ["boss@example.com"])
        ⟨"Please review", "this is urgent", "boss@example.com"⟩).category
      = Category.URGENT ∧
    (rule_based_analyze (TriageAgent.init ["boss@example.com"])
        ⟨"Lunch", "see you at noon", "boss@example.com"⟩).category
      = Category.IMPORTANT ∧
    (rule_based_analyze (TriageAgent.init ["boss@example.com"])
        ⟨"Please review", "this is urgent", "stranger@nowhere.org"⟩).category
      = Category.IMPORTANT := by
  refine ⟨((urgency_rules (TriageAgent.init ["boss@example.com"])
      ⟨"Please review", "this is urgent", "boss@example.com"⟩
      (by decide) (by decide) (by decide)).1 (by decide) (by decide)).1,
    ((urgency_rules (TriageAgent.init ["boss@example.com"])
      ⟨"Lunch", "see you at noon", "boss@example.com"⟩
      (by decide) (by decide) (by decide)).2.1 (by decide) (by decide)).1,
    ((urgency_rules (TriageAgent.init ["boss@example.com"])
      ⟨"Please review", "this is urgent", "stranger@nowhere.org"⟩
      (by decide) (by decide) (by decide)).2.2 (by decide) (by decide)).1⟩

open MailMate in
/-- C3: the classifier is total — for every agent and every email it returns
one of the six categories with a non-empty action and justification; the
all-empty email with no known contacts degrades to OTHER. -/
theorem classify_total (a : TriageAgent) (e : Email) :
    ((rule_based_analyze a e).category = Category.URGENT ∨
     (rule_based_analyze a e).category = Category.IMPORTANT ∨
     (rule_based_analyze a e).category = Category.NEWSLETTER ∨
     (rule_based_analyze a e).category = Category.PROMOTIONAL ∨
     (rule_based_analyze a e).category = Category.OTP_RECEIPT ∨
     (rule_based_analyze a e).category = Category.OTHER) ∧
    (rule_based_analyze a e).action ≠ "" ∧
    (rule_based_analyze a e).justification ≠ "" ∧
    (rule_based_analyze (TriageAgent.init []) ⟨"", "", ""⟩).category = Category.OTHER := by
  refine ⟨?_, ?_, ?_, by decide⟩ <;>
    · unfold rule_based_analyze
      split_ifs <;> simp

open MailMate in
/-- C9: whenever the delegate (CrewAI-backed) classification fails, `analyze`
returns exactly the rule-based classification of the same email, never
propagating the delegate's error; so `analyze` yields a result whenever the
rule-based path does. -/
theorem delegate_fallback (d : Email → Except String EmailTriageResult)
    (a : TriageAgent) (e : Email) (msg : String)
    (h : d e = Except.error msg) :
    analyze (some d) a e = rule_based_analyze a e := by
  simp [analyze, h]

open MailMate in
/-- C9 witness: a delegate that always fails with a malformed response falls
back to the rule-based result on a concrete email. -/
theorem delegate_fallback_witness :
    analyze (some (fun _ => Except.error "malformed JSON"))
        (TriageAgent.init []) ⟨"Hello there", "Just checking in", "friend@example.com"⟩
      = rule_based_analyze (TriageAgent.init [])
        ⟨"Hello there", "Just checking in", "friend@example.com"⟩ :=
  delegate_fallback (fun _ => Except.error "malformed JSON")
    (TriageAgent.init []) ⟨"Hello there", "Just checking in", "friend@example.com"⟩
    "malformed JSON" rfl

open MailMate in
/-- The empty needle is a substring of every character list. -/
theorem MailMate.sublistAt_nil (h : List Char) : sublistAt [] h = true := by
  cases h <;> simp [sublistAt, List.isPrefixOf]

open MailMate in
/-- C10: known-contact matching is substring containment of each stored
(lower-cased) contact in the lower-cased sender, so an empty-string contact
matches every sender; whenever some stored contact occurs inside the sender
(even a different address) and no newsletter/OTP-receipt/promotional keyword
matches, the result is URGENT or IMPORTANT — never OTHER. -/
theorem substring_contact_match (cs : List String) (e : Email)
    (hn : matchesNewsletter e = false) (ho : matchesOtpReceipt e = false)
    (hp : matchesPromotional e = false)
    (hc : "" ∈ cs ∨ ∃ c ∈ cs, sublistAt (pyLowerStr c).data (pyLower e.sender) = true) :
    (rule_based_analyze (TriageAgent.init cs) e).category = Category.URGENT ∨
    (rule_based_analyze (TriageAgent.init cs) e).category = Category.IMPORTANT := by
  have hk : isKnownContact (TriageAgent.init cs) e = true := by
    simp only [isKnownContact, TriageAgent.init, List.any_eq_true]
    rcases hc with hmem | ⟨c, hmem, hsub⟩
    · exact ⟨pyLowerStr "", List.mem_map_of_mem _ hmem, MailMate.sublistAt_nil _⟩
    · exact ⟨pyLowerStr c, List.mem_map_of_mem _ hmem, hsub⟩
  cases hu : hasUrgency e
  · exact Or.inr (by simp [rule_based_analyze, hn, ho, hp, hk, hu])
  · exact Or.inl (by simp [rule_based_analyze, hn, ho, hp, hk, hu])

open MailMate in
/-- C10 witness: contact `boss@example.com` matches the unrelated sender
`not-boss@example.com.attacker.net`, yielding IMPORTANT (not OTHER). -/
theorem substring_contact_match_witness :
    (rule_based_analyze (TriageAgent.init ["boss@example.com"])
        ⟨"Team notes", "see the shared document", "not-boss@example.com.attacker.net"⟩).category
      = Category.URGENT ∨
    (rule_based_analyze (TriageAgent.init ["boss@example.com"])
        ⟨"Team notes", "see the shared document", "not-boss@example.com.attacker.net"⟩).category
      = Category.IMPORTANT :=
  substring_contact_match ["boss@example.com"]
    ⟨"Team notes", "see the shared document", "not-boss@example.com.attacker.net"⟩
    (by decide) (by decide) (by decide)
    (Or.inr ⟨"boss@example.com", by decide, by decide⟩)

open MailMate in
/-- Helper: the creation loop only ever appends to the server's folder
list — folders present before it runs are still present afterwards. -/
theorem MailMate.ensureLoop_mono (fail : String → Bool) (existing : List String) :
    ∀ (l : List (String × String)) (st : ImapState),
      st.folders ⊆ (ensureLoop fail existing l st).2.1.folders := by
  intro l
  induction l with
  | nil => intro st; simp [ensureLoop]
  | cons q rest ih =>
    intro st
    obtain ⟨c, folder⟩ := q
    unfold ensureLoop
    split_ifs with h1 h2
    · exact ih st
    · simp
    · exact fun x hx =>
        ih ⟨st.folders ++ [folder]⟩ (List.mem_append_left _ hx)

open MailMate in
/-- Helper: if the creation loop reports success and the parsed listing is
contained in the current server state, every mapping value ends up present
on the server. -/
theorem MailMate.ensureLoop_success_mem (fail : String → Bool) (existing : List String) :
    ∀ (l : List (String × String)) (st : ImapState),
      existing ⊆ st.folders →
      (ensureLoop fail existing l st).1 = true →
      ∀ p ∈ l, p.2 ∈ (ensureLoop fail existing l st).2.1.folders := by
  intro l
  induction l with
  | nil => intro st _ _ p hp; simp at hp
  | cons q rest ih =>
    intro st hsub hsucc p hp
    obtain ⟨c, folder⟩ := q
    by_cases h1 : folder ∈ existing
    · simp only [ensureLoop, if_pos h1] at hsucc ⊢
      rcases List.mem_cons.mp hp with heq | hmem
      · subst heq
        exact ensureLoop_mono fail existing rest st (hsub h1)
      · exact ih st hsub hsucc p hmem
    · by_cases h2 : fail folder = true
      · simp [ensureLoop, if_neg h1, h2] at hsucc
      · have h2' : fail folder = false := by
          cases hfg : fail folder
          · rfl
          · exact absurd hfg h2
        simp only [ensureLoop, if_neg h1, h2', Bool.false_eq_true, if_false] at hsucc ⊢
        rcases List.mem_cons.mp hp with heq | hmem
        · subst heq
          exact ensureLoop_mono fail existing rest ⟨st.folders ++ [folder]⟩
            (by simp)
        · exact ih ⟨st.folders ++ [folder]⟩
            (fun x hx => List.mem_append_left _ (hsub hx)) hsucc p hmem

open MailMate in
/-- Helper: when every mapping value is already in the parsed listing, the
creation loop does nothing: success, unchanged state, no create calls. -/
theorem MailMate.ensureLoop_all_present (fail : String → Bool) (existing : List String) :
    ∀ (l : List (String × String)) (st : ImapState),
      (∀ p ∈ l, p.2 ∈ existing) →
      ensureLoop fail existing l st = (true, st, []) := by
  intro l
  induction l with
  | nil => intro st _; rfl
  | cons q rest ih =>
    intro st h
    obtain ⟨c, folder⟩ := q
    have h1 : folder ∈ existing := h (c, folder) (List.mem_cons_self _ _)
    simp only [ensureLoop, if_pos h1]
    exact ih st (fun p hp => h p (List.mem_cons_of_mem _ hp))

open MailMate in
/-- C8: folder provisioning is idempotent — if a first `ensure_folders_exist`
run succeeds, a second run on the resulting (stable) server listing issues
zero create calls and returns success, for any failure oracle. -/
theorem ensure_idempotent (fail fail2 : String → Bool)
    (mapping : List (String × String)) (st : ImapState)
    (h1 : (ensure_folders_exist fail mapping st).1 = true) :
    ensure_folders_exist fail2 mapping (ensure_folders_exist fail mapping st).2.1
      = (true, (ensure_folders_exist fail mapping st).2.1, []) := by
  apply MailMate.ensureLoop_all_present
  intro p hp
  exact MailMate.ensureLoop_success_mem fail st.folders mapping st
    (fun x hx => hx) h1 p hp

open MailMate in
/-- C8 witness: after provisioning the default mapping over a server that
only has `INBOX`, a second run creates nothing and succeeds. -/
theorem ensure_idempotent_witness :
    ensure_folders_exist (fun _ => false) DEFAULT_FOLDER_MAPPING
        (ensure_folders_exist (fun _ => false) DEFAULT_FOLDER_MAPPING ⟨["INBOX"]⟩).2.1
      = (true,
         (ensure_folders_exist (fun _ => false) DEFAULT_FOLDER_MAPPING ⟨["INBOX"]⟩).2.1,
         []) :=
  ensure_idempotent (fun _ => false) (fun _ => false) DEFAULT_FOLDER_MAPPING
    ⟨["INBOX"]⟩ (by decide)

open MailMate in
/-- Helper: running the creation loop into the first failing create — all
earlier entries are either present or create successfully, then entry
`(cat, f)` is missing and its create raises: the loop returns `False`, the
attempted creates are exactly the earlier missing folders followed by `f`
(nothing from `post` is attempted), and the server keeps its original folders
plus those successfully created (no rollback). -/
theorem MailMate.ensureLoop_first_failure (fail : String → Bool) (existing : List String)
    (cat f : String) (post : List (String × String)) :
    ∀ (pre : List (String × String)) (st : ImapState),
      (∀ p ∈ pre, p.2 ∈ existing ∨ fail p.2 = false) →
      f ∉ existing → fail f = true →
      ensureLoop fail existing (pre ++ (cat, f) :: post) st
        = (false,
           ⟨st.folders ++ (pre.filter (fun p => p.2 ∉ existing)).map Prod.snd⟩,
           (pre.filter (fun p => p.2 ∉ existing)).map Prod.snd ++ [f]) := by
  intro pre
  induction pre with
  | nil =>
    intro st _ hf hfail
    simp [ensureLoop, hf, hfail]
  | cons q rest ih =>
    intro st hpre hf hfail
    obtain ⟨c, g⟩ := q
    by_cases h1 : g ∈ existing
    · rw [List.cons_append]
      simp only [ensureLoop, if_pos h1]
      rw [ih st (fun p hp => hpre p (List.mem_cons_of_mem _ hp)) hf hfail]
      simp [List.filter_cons, h1]
    · have h2 : fail g = false := by
        rcases hpre (c, g) (List.mem_cons_self _ _) with h | h
        · exact absurd h h1
        · exact h
      rw [List.cons_append]
      simp only [ensureLoop, if_neg h1, h2, Bool.false_eq_true, if_false]
      rw [ih ⟨st.folders ++ [g]⟩ (fun p hp => hpre p (List.mem_cons_of_mem _ hp))
        hf hfail]
      simp [List.filter_cons, h1, List.append_assoc]

open MailMate in
/-- C6: `ensure_folders_exist` stops at the first folder-creation failure and
returns failure: the attempted creates are exactly the missing folders before
the failing one plus the failing folder itself (no later folder is attempted),
and the server state keeps every previously existing and previously created
folder (no rollback). -/
theorem ensure_first_failure (fail : String → Bool) (st : ImapState)
    (pre post : List (String × String)) (cat f : String)
    (hpre : ∀ p ∈ pre, p.2 ∈ st.folders ∨ fail p.2 = false)
    (hf : f ∉ st.folders) (hfail : fail f = true) :
    ensure_folders_exist fail (pre ++ (cat, f) :: post) st
      = (false,
         ⟨st.folders ++ (pre.filter (fun p => p.2 ∉ st.folders)).map Prod.snd⟩,
         (pre.filter (fun p => p.2 ∉ st.folders)).map Prod.snd ++ [f]) :=
  MailMate.ensureLoop_first_failure fail st.folders cat f post pre st hpre hf hfail

open MailMate in
/-- C6 witness: with `Important` failing to create, provisioning the default
mapping over a server with only `INBOX` creates `Urgent`, attempts
`Important`, reports failure, and leaves `Urgent` in place. -/
theorem ensure_first_failure_witness :
    ensure_folders_exist (fun s => s == "Important") DEFAULT_FOLDER_MAPPING ⟨["INBOX"]⟩
      = (false, ⟨["INBOX", "Urgent"]⟩, ["Urgent", "Important"]) := by
  have h := ensure_first_failure (fun s => s == "Important") ⟨["INBOX"]⟩
    [("URGENT", "Urgent")]
    [("NEWSLETTER", "Newsletters"), ("PROMOTIONAL", "Promotions"),
     ("OTP_RECEIPT", "Receipts"), ("OTHER", "Archive")]
    "IMPORTANT" "Important" (by decide) (by decide) (by decide)
  exact h.trans (by decide)

open MailMate in
/-- C4: `move_email` issues select → copy → store(deleted-flag) → expunge in
that exact order; when every step succeeds it reports success having issued
exactly those four calls, and an injected failure at step `k` makes it report
failure having attempted only steps `0..k` — no later step, and no
compensating call beyond the canonical sequence (no rollback of the copy). -/
theorem move_email_sequencing (fail : ImapOp → Bool)
    (message_id source target : String) :
    ((∀ op ∈ moveSteps message_id source target, fail op = false) →
      move_email fail message_id source target
        = (true, moveSteps message_id source target)) ∧
    (∀ k, k < 4 →
      (∀ op ∈ (moveSteps message_id source target).take k, fail op = false) →
      fail ((moveSteps message_id source target).getD k ImapOp.expunge) = true →
      move_email fail message_id source target
        = (false, (moveSteps message_id source target).take (k + 1))) := by
  constructor
  · intro h
    have h1 := h (ImapOp.select source) (by simp [moveSteps])
    have h2 := h (ImapOp.copy message_id target) (by simp [moveSteps])
    have h3 := h (ImapOp.store message_id) (by simp [moveSteps])
    have h4 := h ImapOp.expunge (by simp [moveSteps])
    simp [move_email, moveSteps, runSeq, h1, h2, h3, h4]
  · intro k hk hpre hfail
    interval_cases k <;> simp_all [move_email, moveSteps, runSeq]

open MailMate in
/-- C4 witness: with the store step failing, `move_email` attempts select,
copy, store only, and reports failure. -/
theorem move_email_sequencing_witness :
    move_email (fun op => match op with | ImapOp.store _ => true | _ => false)
        "1" "INBOX" "Urgent"
      = (false, [ImapOp.select "INBOX", ImapOp.copy "1" "Urgent", ImapOp.store "1"]) := by
  have h := (move_email_sequencing
      (fun op => match op with | ImapOp.store _ => true | _ => false)
      "1" "INBOX" "Urgent").2 2 (by decide) (by decide) (by decide)
  exact h.trans (by decide)

open MailMate in
/-- Helper: the inbox-excluding creation loop only attempts folders that are
mapping values, missing from the listing, and not the root inbox; with no
injected failures its create calls are exactly those folders, in order. -/
theorem MailMate.mailmateLoop_creates (fail : String → Bool) (existing : List String) :
    ∀ (l : List (String × String)) (st : ImapState),
      (∀ g ∈ (mailmateEnsureLoop fail existing l st).2.2,
        g ∈ l.map Prod.snd ∧ g ∉ existing ∧ pyLowerStr g ≠ "inbox") ∧
      ((∀ s, fail s = false) →
        (mailmateEnsureLoop fail existing l st).2.2
          = (l.filter
              (fun p => ¬pyLowerStr p.2 = "inbox" ∧ p.2 ∉ existing)).map Prod.snd) := by
  intro l
  induction l with
  | nil => intro st; exact ⟨fun g hg => by simp [mailmateEnsureLoop] at hg, fun _ => rfl⟩
  | cons q rest ih =>
    intro st
    obtain ⟨c, g⟩ := q
    by_cases h1 : pyLowerStr g = "inbox" ∨ g ∈ existing
    · constructor
      · intro x hx
        simp only [mailmateEnsureLoop, if_pos h1] at hx
        obtain ⟨hm, hne, hni⟩ := (ih st).1 x hx
        exact ⟨by simp [hm, List.mem_cons], hne, hni⟩
      · intro hnofail
        simp only [mailmateEnsureLoop, if_pos h1]
        rw [(ih st).2 hnofail]
        have : ¬(¬pyLowerStr g = "inbox" ∧ g ∉ existing) := by tauto
        simp [List.filter_cons, this]
    · push_neg at h1
      obtain ⟨hni, hne⟩ := h1
      have h1' : ¬(pyLowerStr g = "inbox" ∨ g ∈ existing) := by tauto
      by_cases h2 : fail g = true
      · constructor
        · intro x hx
          simp only [mailmateEnsureLoop, if_neg h1', h2, if_true] at hx
          simp only [List.mem_singleton] at hx
          subst hx
          exact ⟨by simp, hne, hni⟩
        · intro hnofail
          exact absurd (hnofail g) (by simp [h2])
      · have h2' : fail g = false := by
          cases hfg : fail g
          · rfl
          · exact absurd hfg h2
        constructor
        · intro x hx
          simp only [mailmateEnsureLoop, if_neg h1', h2', Bool.false_eq_true,
            if_false] at hx
          rcases List.mem_cons.mp hx with heq | hmem
          · subst heq
            exact ⟨by simp, hne, hni⟩
          · obtain ⟨hm, hne', hni'⟩ := (ih ⟨st.folders ++ [g]⟩).1 x hmem
            exact ⟨by simp [hm, List.mem_cons], hne', hni'⟩
        · intro hnofail
          simp only [mailmateEnsureLoop, if_neg h1', h2', Bool.false_eq_true, if_false]
          rw [(ih ⟨st.folders ++ [g]⟩).2 hnofail]
          have : ¬pyLowerStr g = "inbox" ∧ g ∉ existing := ⟨hni, hne⟩
          simp [List.filter_cons, this]

open MailMate in
/-- C5 (spec-modelled): the MailMate `ensure_folders_exist` never issues a
create for a mapping value equal to the root inbox compared
case-insensitively, even when that value is absent from the parsed listing;
every create it issues is for a mapping value missing from the listing, and
with no failures the creates are exactly the missing non-inbox values. -/
theorem inbox_excluded (fail : String → Bool) (mapping : List (String × String))
    (st : ImapState) (f : String) (hf : pyLowerStr f = "inbox") :
    f ∉ (mailmate_ensure_folders_exist fail mapping st).2.2 ∧
    (∀ g ∈ (mailmate_ensure_folders_exist fail mapping st).2.2,
      g ∈ mapping.map Prod.snd ∧ g ∉ st.folders) ∧
    ((∀ s, fail s = false) →
      (mailmate_ensure_folders_exist fail mapping st).2.2
        = (mapping.filter
            (fun p => ¬pyLowerStr p.2 = "inbox" ∧ p.2 ∉ st.folders)).map Prod.snd) := by
  have h := MailMate.mailmateLoop_creates fail st.folders mapping st
  refine ⟨fun hmem => ?_, fun g hg => ?_, h.2⟩
  · exact absurd hf (h.1 f hmem).2.2
  · exact ⟨(h.1 g hg).1, (h.1 g hg).2.1⟩

open MailMate in
/-- C5 witness: a mapping sending `OTHER` to `INBOX` on a server with no
folders — `INBOX` is never created, the only create is `Urgent`. -/
theorem inbox_excluded_witness :
    pyLowerStr "INBOX" = "inbox" ∧
    "INBOX" ∉ (mailmate_ensure_folders_exist (fun _ => false)
        [("URGENT", "Urgent"), ("OTHER", "INBOX")] ⟨[]⟩).2.2 :=
  ⟨by decide,
   (inbox_excluded (fun _ => false) [("URGENT", "Urgent"), ("OTHER", "INBOX")]
      ⟨[]⟩ "INBOX" (by decide)).1⟩

open MailMate in
/-- C7: under the invariant that the mapping has an `OTHER` entry, a lookup
for any category absent from the mapping returns the same folder as the
`OTHER` lookup and never errs, and a lookup for a mapped category returns
that category's folder. -/
theorem folder_default (m : List (String × String)) (d : String)
    (hother : dictGet m "OTHER" = some d) :
    (∀ c, dictGet m c = none →
      get_folder_for_category m c = get_folder_for_category m "OTHER" ∧
      (get_folder_for_category m c).isSome = true) ∧
    (∀ c f, dictGet m c = some f → get_folder_for_category m c = some f) := by
  constructor
  · intro c hc
    simp [get_folder_for_category, hother, hc]
  · intro c f hcf
    simp [get_folder_for_category, hother, hcf]

open MailMate in
/-- C7 witness: on the default mapping the unknown category `SPAM` resolves
to the `OTHER` folder and `URGENT` to its own folder. -/
theorem folder_default_witness :
    get_folder_for_category DEFAULT_FOLDER_MAPPING "SPAM"
      = get_folder_for_category DEFAULT_FOLDER_MAPPING "OTHER" ∧
    get_folder_for_category DEFAULT_FOLDER_MAPPING "URGENT" = some "Urgent" :=
  ⟨((folder_default DEFAULT_FOLDER_MAPPING "Archive" (by decide)).1 "SPAM"
      (by decide)).1,
   (folder_default DEFAULT_FOLDER_MAPPING "Archive" (by decide)).2 "URGENT" "Urgent"
      (by decide)⟩
